import Mathlib

/-!
Verification of the deshi-grocery-hub data model: the relational schema,
row-level security (RLS) policies and triggers from
`supabase/migrations/20250904073112_*.sql`, together with the client cart
operations from `src/components/grocery/ProductCard.tsx` and
`src/pages/Cart.tsx`, the order-history read from the Orders page, and the
signup flow from `src/components/auth/AuthForm.tsx`.

Opaque identifiers (UUIDs) are modelled as naturals; `DECIMAL(10,2)` money
amounts as rationals; timestamps are omitted (no claim depends on them).
Each table is a list of rows; RLS policies are Boolean predicates over the
requesting identity (`Option UserId`, `none` = anonymous, since
`auth.uid()` is NULL for anonymous requests) and the row, transcribed from
the `CREATE POLICY` statements.
-/

namespace GroceryHub

abbrev UserId := Nat
abbrev ProductId := Nat
abbrev CategoryId := Nat
abbrev OrderId := Nat
abbrev RowId := Nat
abbrev Money := ℚ

/-- `public.profiles`: id, user_id (UNIQUE), full_name, phone,
language (DEFAULT 'en'), data_collection_consent (DEFAULT false). -/
structure ProfileRow where
  id : RowId
  user_id : UserId
  full_name : Option String
  phone : Option String
  language : String
  data_collection_consent : Bool
  deriving Repr, DecidableEq

/-- `public.categories`: id, name, name_hi, sort_order, is_active. -/
structure CategoryRow where
  id : CategoryId
  name : String
  name_hi : Option String
  sort_order : Int
  is_active : Bool
  deriving Repr, DecidableEq

/-- `public.products`: id, name, name_hi, price, original_price,
discount_percentage, image_url, category_id, brand, unit, stock_quantity,
is_active. -/
structure ProductRow where
  id : ProductId
  name : String
  name_hi : Option String
  price : Money
  original_price : Option Money
  discount_percentage : Int
  image_url : Option String
  category_id : Option CategoryId
  brand : Option String
  unit : String
  stock_quantity : Int
  is_active : Bool
  deriving Repr, DecidableEq

/-- `public.cart`: id, user_id, product_id, quantity,
with `UNIQUE(user_id, product_id)` and `CHECK (quantity > 0)`. -/
structure CartRow where
  id : RowId
  user_id : UserId
  product_id : ProductId
  quantity : Int
  deriving Repr, DecidableEq

/-- `public.orders`: id, user_id, total_amount, delivery_fee,
discount_amount, status, payment_method, delivery_address, phone. -/
structure OrderRow where
  id : OrderId
  user_id : UserId
  total_amount : Money
  delivery_fee : Money
  discount_amount : Money
  status : String
  payment_method : String
  delivery_address : String
  phone : String
  deriving Repr, DecidableEq

/-- `public.order_items`: id, order_id, product_id, quantity,
unit_price, total_price, with `CHECK (quantity > 0)`. -/
structure OrderItemRow where
  id : RowId
  order_id : OrderId
  product_id : ProductId
  quantity : Int
  unit_price : Money
  total_price : Money
  deriving Repr, DecidableEq

/-- The database state: one list per table. -/
structure DB where
  profiles : List ProfileRow
  categories : List CategoryRow
  products : List ProductRow
  cart : List CartRow
  orders : List OrderRow
  order_items : List OrderItemRow
  deriving Repr, DecidableEq

/-! ### RLS policy predicates, transcribed from the migration SQL.

`uid` is the requesting identity (`auth.uid()`), `none` when anonymous. -/

/-- "Users can view their own profile": `auth.uid() = user_id`. -/
def profilesSelectPolicy (uid : Option UserId) (r : ProfileRow) : Bool :=
  uid = some r.user_id

/-- "Users can update their own profile": `auth.uid() = user_id`. -/
def profilesUpdatePolicy (uid : Option UserId) (r : ProfileRow) : Bool :=
  uid = some r.user_id

/-- "Users can insert their own profile" (WITH CHECK): `auth.uid() = user_id`. -/
def profilesInsertCheck (uid : Option UserId) (r : ProfileRow) : Bool :=
  uid = some r.user_id

/-- "Categories are viewable by everyone": `is_active = true`. -/
def categoriesSelectPolicy (_uid : Option UserId) (r : CategoryRow) : Bool :=
  r.is_active

/-- "Products are viewable by everyone": `is_active = true`. -/
def productsSelectPolicy (_uid : Option UserId) (r : ProductRow) : Bool :=
  r.is_active

/-- "Users can view their own cart": `auth.uid() = user_id`. -/
def cartSelectPolicy (uid : Option UserId) (r : CartRow) : Bool :=
  uid = some r.user_id

/-- "Users can insert their own cart items" (WITH CHECK). -/
def cartInsertCheck (uid : Option UserId) (r : CartRow) : Bool :=
  uid = some r.user_id

/-- "Users can update their own cart". -/
def cartUpdatePolicy (uid : Option UserId) (r : CartRow) : Bool :=
  uid = some r.user_id

/-- "Users can delete their own cart items". -/
def cartDeletePolicy (uid : Option UserId) (r : CartRow) : Bool :=
  uid = some r.user_id

/-- "Users can view their own orders". -/
def ordersSelectPolicy (uid : Option UserId) (r : OrderRow) : Bool :=
  uid = some r.user_id

/-- "Users can insert their own orders" (WITH CHECK). -/
def ordersInsertCheck (uid : Option UserId) (r : OrderRow) : Bool :=
  uid = some r.user_id

/-- "Users can view their own order items":
`order_id IN (SELECT id FROM public.orders WHERE user_id = auth.uid())`.
The subquery runs against the orders table of the database state. -/
def orderItemsSelectPolicy (db : DB) (uid : Option UserId) (r : OrderItemRow) : Bool :=
  (db.orders.filter (fun o => uid = some o.user_id)).any (fun o => o.id = r.order_id)

/-- "Users can insert their own order items" (WITH CHECK): same subquery. -/
def orderItemsInsertCheck (db : DB) (uid : Option UserId) (r : OrderItemRow) : Bool :=
  (db.orders.filter (fun o => uid = some o.user_id)).any (fun o => o.id = r.order_id)

/-! ### Generic RLS operation semantics.

A SELECT returns the rows passing the policy. A DELETE removes them. An
UPDATE rewrites them; PostgreSQL applies the USING expression as the
WITH CHECK expression when the policy declares none, and a row failing
WITH CHECK aborts the whole statement, leaving the table unchanged.
An INSERT failing WITH CHECK is rejected, leaving the table unchanged.
A table with no policy for a command denies that command for every row. -/

def rlsSelect {α : Type} (policy : α → Bool) (rows : List α) : List α :=
  rows.filter policy

def rlsDelete {α : Type} (policy : α → Bool) (rows : List α) : List α × Nat :=
  (rows.filter (fun r => !policy r), rows.countP policy)

def rlsUpdate {α : Type} (policy check : α → Bool) (f : α → α)
    (rows : List α) : Except Unit (List α × Nat) :=
  if rows.any (fun r => policy r && !check (f r)) then .error ()
  else .ok (rows.map (fun r => if policy r then f r else r), rows.countP policy)

def rlsInsert {α : Type} (check : α → Bool) (rows : List α) (newRow : α) :
    Except Unit (List α) :=
  if check newRow then .ok (rows ++ [newRow]) else .error ()

/-! ### Per-table operations as the client sees them. -/

def selectProfiles (uid : Option UserId) (db : DB) : List ProfileRow :=
  rlsSelect (profilesSelectPolicy uid) db.profiles

def selectCategories (uid : Option UserId) (db : DB) : List CategoryRow :=
  rlsSelect (categoriesSelectPolicy uid) db.categories

def selectProducts (uid : Option UserId) (db : DB) : List ProductRow :=
  rlsSelect (productsSelectPolicy uid) db.products

def selectCart (uid : Option UserId) (db : DB) : List CartRow :=
  rlsSelect (cartSelectPolicy uid) db.cart

def selectOrders (uid : Option UserId) (db : DB) : List OrderRow :=
  rlsSelect (ordersSelectPolicy uid) db.orders

def selectOrderItems (uid : Option UserId) (db : DB) : List OrderItemRow :=
  rlsSelect (orderItemsSelectPolicy db uid) db.order_items

def updateProfiles (uid : Option UserId) (f : ProfileRow → ProfileRow)
    (db : DB) : Except Unit (List ProfileRow × Nat) :=
  rlsUpdate (profilesUpdatePolicy uid) (profilesUpdatePolicy uid) f db.profiles

def insertProfileAs (uid : Option UserId) (r : ProfileRow) (db : DB) :
    Except Unit (List ProfileRow) :=
  rlsInsert (profilesInsertCheck uid) db.profiles r

def updateCart (uid : Option UserId) (f : CartRow → CartRow) (db : DB) :
    Except Unit (List CartRow × Nat) :=
  rlsUpdate (cartUpdatePolicy uid) (cartUpdatePolicy uid) f db.cart

def insertCartAs (uid : Option UserId) (r : CartRow) (db : DB) :
    Except Unit (List CartRow) :=
  rlsInsert (cartInsertCheck uid) db.cart r

def deleteCart (uid : Option UserId) (p : CartRow → Bool) (db : DB) :
    List CartRow × Nat :=
  rlsDelete (fun r => cartDeletePolicy uid r && p r) db.cart

def insertOrderAs (uid : Option UserId) (r : OrderRow) (db : DB) :
    Except Unit (List OrderRow) :=
  rlsInsert (ordersInsertCheck uid) db.orders r

def insertOrderItemAs (uid : Option UserId) (r : OrderItemRow) (db : DB) :
    Except Unit (List OrderItemRow) :=
  rlsInsert (orderItemsInsertCheck db uid) db.order_items r

/-- `public.orders` declares no UPDATE or DELETE policy, and RLS denies a
command with no policy: zero rows match. -/
def ordersUpdatePolicy (_uid : Option UserId) (_r : OrderRow) : Bool := false

def ordersDeletePolicy (_uid : Option UserId) (_r : OrderRow) : Bool := false

/-- `public.order_items` declares no UPDATE or DELETE policy. -/
def orderItemsUpdatePolicy (_uid : Option UserId) (_r : OrderItemRow) : Bool := false

def orderItemsDeletePolicy (_uid : Option UserId) (_r : OrderItemRow) : Bool := false

/-- `public.profiles` declares no DELETE policy. -/
def profilesDeletePolicy (_uid : Option UserId) (_r : ProfileRow) : Bool := false

/-! ### Cart client operations (`ProductCard.tsx`, `Cart.tsx`). -/

/-- Fresh primary key for a new cart row (`gen_random_uuid()` modelled as
a value distinct from every existing id). -/
def cartFreshId (db : DB) : RowId :=
  (db.cart.map (fun c => c.id)).foldr max 0 + 1

/-- `supabase.from('cart').upsert({user_id, product_id, quantity})`
resolved against the table's `UNIQUE(user_id, product_id)` constraint:
if a row for the (user, product) pair exists its quantity is replaced,
otherwise a new row is inserted. The storage layer serializes the
conflict resolution, so the operation is atomic. -/
def cartUpsert (db : DB) (uid : UserId) (pid : ProductId) (q : Int) : DB :=
  if db.cart.any (fun c => c.user_id = uid && c.product_id = pid) then
    { db with cart := db.cart.map (fun c =>
        if c.user_id = uid && c.product_id = pid then { c with quantity := q } else c) }
  else
    { db with cart := db.cart ++ [⟨cartFreshId db, uid, pid, q⟩] }

/-- `ProductCard.addToCart`: upsert with quantity `cartQuantity + 1`. -/
def addToCart (db : DB) (uid : UserId) (pid : ProductId) (cartQuantity : Int) : DB :=
  cartUpsert db uid pid (cartQuantity + 1)

/-- `ProductCard.updateQuantity(newQuantity)`: early return when
`newQuantity < 0`; delete by `(user_id, product_id)` when zero (under the
cart DELETE policy); otherwise upsert. -/
def setQuantity (db : DB) (uid : UserId) (pid : ProductId) (q : Int) : DB :=
  if q < 0 then db
  else if q = 0 then
    { db with cart := db.cart.filter (fun c =>
        !(cartDeletePolicy (some uid) c && c.user_id = uid && c.product_id = pid)) }
  else cartUpsert db uid pid q

/-- `Cart.updateQuantity(cartItemId, newQuantity)`: early return when
negative; delete by row id when zero; otherwise `UPDATE ... WHERE id =
cartItemId`, rows additionally filtered by the cart RLS policies. -/
def updateQuantityById (db : DB) (uid : UserId) (cartItemId : RowId)
    (newQuantity : Int) : DB :=
  if newQuantity < 0 then db
  else if newQuantity = 0 then
    { db with cart := db.cart.filter (fun c =>
        !(cartDeletePolicy (some uid) c && c.id = cartItemId)) }
  else
    { db with cart := db.cart.map (fun c =>
        if cartUpdatePolicy (some uid) c && c.id = cartItemId then
          { c with quantity := newQuantity } else c) }

/-! ### Cart page read and totals (`Cart.tsx`). -/

/-- Product projection selected by `Cart.fetchCartItems`:
`id, name, price, image_url, unit, stock_quantity`. -/
structure CartProductView where
  id : ProductId
  name : String
  price : Money
  image_url : Option String
  unit : String
  stock_quantity : Int
  deriving Repr, DecidableEq

structure CartItemWithProduct where
  id : RowId
  quantity : Int
  product : CartProductView
  deriving Repr, DecidableEq

def productCartView (p : ProductRow) : CartProductView :=
  ⟨p.id, p.name, p.price, p.image_url, p.unit, p.stock_quantity⟩

/-- `Cart.fetchCartItems`: the user's cart rows with the embedded product
projection; the embedded resource passes through the products SELECT
policy, like any other read. -/
def fetchCartItems (uid : UserId) (db : DB) : List CartItemWithProduct :=
  (selectCart (some uid) db).filterMap (fun c =>
    ((selectProducts (some uid) db).find? (fun p => p.id = c.product_id)).map
      (fun p => ⟨c.id, c.quantity, productCartView p⟩))

/-- `Cart.calculateTotal`: `reduce((total, item) => total +
item.product.price * item.quantity, 0)`. -/
def calculateTotal (items : List CartItemWithProduct) : Money :=
  items.foldl (fun total item => total + item.product.price * item.quantity) 0

/-- The delivery fee hard-coded in the Cart checkout summary (₹20.00). -/
def deliveryFee : Money := 20

/-! ### Order history read (`Orders.fetchOrders`). -/

structure OrderItemProductView where
  name : String
  image_url : Option String
  deriving Repr, DecidableEq

structure OrderItemView where
  quantity : Int
  unit_price : Money
  product : Option OrderItemProductView
  deriving Repr, DecidableEq

structure OrderView where
  id : OrderId
  total_amount : Money
  delivery_fee : Money
  status : String
  payment_method : String
  order_items : List OrderItemView
  deriving Repr, DecidableEq

def productOrderView (p : ProductRow) : OrderItemProductView :=
  ⟨p.name, p.image_url⟩

/-- `Orders.fetchOrders`: the user's orders with nested order items
(`quantity, unit_price`) and the minimal product projection
(`name, image_url`); every embedded table passes through its own RLS
SELECT policy. Display reads `unit_price` from the order item snapshot,
never from `products.price`. -/
def fetchOrders (uid : UserId) (db : DB) : List OrderView :=
  (selectOrders (some uid) db).map (fun o =>
    ⟨o.id, o.total_amount, o.delivery_fee, o.status, o.payment_method,
     ((selectOrderItems (some uid) db).filter (fun i => i.order_id = o.id)).map
       (fun i => ⟨i.quantity, i.unit_price,
         ((selectProducts (some uid) db).find? (fun p => p.id = i.product_id)).map
           productOrderView⟩)⟩)

/-- A privileged (RLS-bypassing) update of one product's price, the
mutation contemplated by the snapshot invariant. Only the `price` field
of the matching product row changes. -/
def adminUpdateProductPrice (db : DB) (pid : ProductId) (newPrice : Money) : DB :=
  { db with products := db.products.map (fun p =>
      if p.id = pid then { p with price := newPrice } else p) }

/-! ### Profile auto-provisioning (`handle_new_user` trigger). -/

/-- Raw signup metadata (`raw_user_meta_data`); every key may be absent. -/
structure SignupMetadata where
  full_name : Option String
  phone : Option String
  language : Option String
  data_collection_consent : Option Bool
  deriving Repr, DecidableEq

/-- The metadata object built by `AuthForm.handleSubmit` on signup:
`{full_name, phone, language, data_collection_consent}`, all present. -/
def signupMetadata (fullName phoneNum lang : String) (dataConsent : Bool) :
    SignupMetadata :=
  ⟨some fullName, some phoneNum, some lang, some dataConsent⟩

def freshProfileId (db : DB) : RowId :=
  (db.profiles.map (fun r => r.id)).foldr max 0 + 1

/-- `public.handle_new_user()`: on `AFTER INSERT ON auth.users`, runs
`INSERT INTO public.profiles (user_id, full_name) VALUES (new.id,
new.raw_user_meta_data ->> 'full_name')`. Every other column takes its
schema default (`phone` NULL, `language` 'en',
`data_collection_consent` false); the `user_id UNIQUE` constraint makes
a second insert for the same identity fail with a uniqueness violation,
leaving the table unchanged. -/
def handle_new_user (db : DB) (newUserId : UserId) (meta : SignupMetadata) :
    Except Unit DB :=
  if db.profiles.any (fun r => r.user_id = newUserId) then .error ()
  else .ok { db with profiles := db.profiles ++
    [⟨freshProfileId db, newUserId, meta.full_name, none, "en", false⟩] }

/-- Creation of a User Identity by the auth subsystem fires the
`on_auth_user_created` trigger synchronously, so identity creation is
exactly a `handle_new_user` run over the metadata. -/
def createIdentity (db : DB) (newUserId : UserId) (meta : SignupMetadata) :
    Except Unit DB :=
  handle_new_user db newUserId meta

/-! ### Checkout (spec §4.4). -/

inductive CheckoutError where
  | emptyCart
  | missingProduct
  | badQuantity
  deriving Repr, DecidableEq

def freshOrderItemId (db : DB) : RowId :=
  (db.order_items.map (fun i => i.id)).foldr max 0 + 1

/-- Modelled from the spec: the repository has no checkout page under
`src/` (the Cart page navigates to `/checkout`, which is absent), so the
order-materialization step follows §4.4 of the spec. For each cart line,
build one order item whose `unit_price` is snapshotted from the product's
current price and whose `total_price` is `unit_price × quantity`; a
missing product (referential-integrity failure) or a non-positive
quantity (the order_items CHECK constraint) rejects the whole batch. -/
def buildItems (db : DB) (oid : OrderId) (nextId : RowId) :
    List CartRow → Except CheckoutError (List OrderItemRow)
  | [] => .ok []
  | c :: rest =>
    match db.products.find? (fun p => p.id = c.product_id) with
    | none => .error .missingProduct
    | some p =>
      if c.quantity ≤ 0 then .error .badQuantity
      else do
        let items ← buildItems db oid (nextId + 1) rest
        .ok (⟨nextId, oid, c.product_id, c.quantity, p.price, p.price * c.quantity⟩ :: items)

/-- Modelled from the spec: atomic checkout per §4.4 (no checkout page
exists under `src/`). Steps: (1) create one Order with `total_amount` =
sum of (current product price × quantity) + delivery fee and
`status = 'pending'`; (2) create one Order Item per cart line with the
price snapshot; (3) clear the user's cart lines. A failure partway rolls
the transaction back: the returned state is the input state, no Order or
Order Item row from this checkout exists, and the cart is untouched. -/
def checkout (db : DB) (uid : UserId) (addr ph pm : String) (fee : Money)
    (oid : OrderId) : DB × Option CheckoutError :=
  let lines := db.cart.filter (fun c => c.user_id = uid)
  if lines.isEmpty then (db, some .emptyCart)
  else
    match buildItems db oid (freshOrderItemId db) lines with
    | .error e => (db, some e)
    | .ok items =>
      let total := (items.map (fun i => i.total_price)).sum + fee
      let order : OrderRow :=
        ⟨oid, uid, total, fee, 0, "pending", pm, addr, ph⟩
      ({ db with
          orders := db.orders ++ [order],
          order_items := db.order_items ++ items,
          cart := db.cart.filter (fun c => !(c.user_id = uid)) },
       none)

/-! ### Invariant predicates and claim-level propositions. -/

/-- The key constrained by `UNIQUE(user_id, product_id)` on `public.cart`. -/
def cartKey (c : CartRow) : UserId × ProductId :=
  (c.user_id, c.product_id)

/-- The cart invariant: at most one Cart Line per (user, product) pair. -/
def cartKeysUnique (db : DB) : Prop :=
  (db.cart.map cartKey).Nodup

instance (db : DB) : Decidable (cartKeysUnique db) := by
  unfold cartKeysUnique; infer_instance

/-- Primary-key uniqueness on `public.orders` (`id UUID ... PRIMARY KEY`),
needed for the transitive order-item ownership argument. -/
def ordersPKUnique (db : DB) : Prop :=
  (db.orders.map (fun o => o.id)).Nodup

instance (db : DB) : Decidable (ordersPKUnique db) := by
  unfold ordersPKUnique; infer_instance

/-- The order total in the words of the spec and claim: the sum over the
user's cart of (current product price × quantity), plus the delivery
fee. Stated independently of `checkout` to compare the two. -/
def specTotalAmount (db : DB) (uid : UserId) (fee : Money) : Money :=
  ((db.cart.filter (fun c => c.user_id = uid)).map (fun c =>
    (match db.products.find? (fun p => p.id = c.product_id) with
     | some p => p.price
     | none => 0) * (c.quantity : Money))).sum + fee

/-- The per-item snapshot relation between a cart line and the order item
materialized from it: quantity copied, `unit_price` the product's current
price, `total_price = unit_price × quantity`. -/
def snapshotOf (db : DB) (oid : OrderId) (c : CartRow) (i : OrderItemRow) : Prop :=
  i.order_id = oid ∧ i.product_id = c.product_id ∧ i.quantity = c.quantity ∧
  ∃ p, db.products.find? (fun q => q.id = c.product_id) = some p ∧
    i.unit_price = p.price ∧ i.total_price = p.price * c.quantity

/-- Postcondition of a successful checkout: exactly one new pending Order
with the spec's total, one Order Item per materialized cart line carrying
the price snapshot, and the user's cart cleared. -/
def checkoutPost (db : DB) (uid : UserId) (addr ph pm : String) (fee : Money)
    (oid : OrderId) : Prop :=
  ∃ order items,
    (checkout db uid addr ph pm fee oid).1.orders = db.orders ++ [order] ∧
    order.id = oid ∧ order.user_id = uid ∧ order.status = "pending" ∧
    order.payment_method = pm ∧ order.delivery_fee = fee ∧
    order.total_amount = specTotalAmount db uid fee ∧
    (checkout db uid addr ph pm fee oid).1.order_items = db.order_items ++ items ∧
    List.Forall₂ (snapshotOf db oid) (db.cart.filter (fun c => c.user_id = uid)) items ∧
    db.cart.filter (fun c => c.user_id = uid) ≠ [] ∧
    (checkout db uid addr ph pm fee oid).1.cart.filter (fun c => c.user_id = uid) = []

/-- Cross-user isolation, as policy-level guarantees of the storage layer:
reads issued as `u2` never return a row owned by `u1`; updates and
deletes issued as `u2` match zero of `u1`'s rows and leave them unchanged;
inserts claiming `u1`'s ownership are rejected; commands with no declared
policy affect zero rows. Order items are owned transitively through their
parent order. -/
def crossUserIsolated (db : DB) (u1 u2 : UserId) : Prop :=
  (∀ r ∈ selectProfiles (some u2) db, r.user_id ≠ u1) ∧
  (∀ r ∈ selectCart (some u2) db, r.user_id ≠ u1) ∧
  (∀ r ∈ selectOrders (some u2) db, r.user_id ≠ u1) ∧
  (∀ i ∈ selectOrderItems (some u2) db,
    ∀ o ∈ db.orders, o.id = i.order_id → o.user_id ≠ u1) ∧
  (∀ f : ProfileRow → ProfileRow,
    db.profiles.countP (fun r => profilesUpdatePolicy (some u2) r && r.user_id = u1) = 0 ∧
    ∀ rows n, updateProfiles (some u2) f db = .ok (rows, n) →
      rows.filter (fun r => r.user_id = u1) = db.profiles.filter (fun r => r.user_id = u1)) ∧
  (∀ f : CartRow → CartRow,
    db.cart.countP (fun r => cartUpdatePolicy (some u2) r && r.user_id = u1) = 0 ∧
    ∀ rows n, updateCart (some u2) f db = .ok (rows, n) →
      rows.filter (fun r => r.user_id = u1) = db.cart.filter (fun r => r.user_id = u1)) ∧
  (∀ p : CartRow → Bool,
    ((deleteCart (some u2) p db).1).filter (fun r => r.user_id = u1)
      = db.cart.filter (fun r => r.user_id = u1) ∧
    db.cart.countP (fun r => cartDeletePolicy (some u2) r && p r && r.user_id = u1) = 0) ∧
  (∀ r : ProfileRow, r.user_id = u1 → insertProfileAs (some u2) r db = .error ()) ∧
  (∀ r : CartRow, r.user_id = u1 → insertCartAs (some u2) r db = .error ()) ∧
  (∀ r : OrderRow, r.user_id = u1 → insertOrderAs (some u2) r db = .error ()) ∧
  (∀ i : OrderItemRow, (∃ o ∈ db.orders, o.id = i.order_id ∧ o.user_id = u1) →
    insertOrderItemAs (some u2) i db = .error ()) ∧
  rlsDelete (profilesDeletePolicy (some u2)) db.profiles = (db.profiles, 0) ∧
  rlsDelete (ordersDeletePolicy (some u2)) db.orders = (db.orders, 0) ∧
  rlsDelete (orderItemsDeletePolicy (some u2)) db.order_items = (db.order_items, 0) ∧
  (∀ f : OrderRow → OrderRow,
    rlsUpdate (ordersUpdatePolicy (some u2)) (ordersUpdatePolicy (some u2)) f db.orders
      = .ok (db.orders, 0)) ∧
  (∀ f : OrderItemRow → OrderItemRow,
    rlsUpdate (orderItemsUpdatePolicy (some u2)) (orderItemsUpdatePolicy (some u2)) f
      db.order_items = .ok (db.order_items, 0))

/-! ### Concrete states used by witnesses and counterexamples. -/

/-- A cart with a single line: user 1 holds product 1 with quantity 2. -/
def oneLineDb : DB :=
  ⟨[], [], [], [⟨1, 1, 1, 2⟩], [], []⟩

/-- The spec's checkout scenario: products Banana (id 1, price 40.00) and
Milk (id 2, price 55.00); user 7's cart holds (Banana, qty 2) and
(Milk, qty 1). -/
def scenarioDb : DB :=
  ⟨[], [],
   [⟨1, "Banana", none, 40, none, 0, none, none, some "Fresh", "kg", 100, true⟩,
    ⟨2, "Milk", none, 55, none, 0, none, none, some "Amul", "liter", 30, true⟩],
   [⟨10, 7, 1, 2⟩, ⟨11, 7, 2, 1⟩], [], []⟩

/-- A cart whose single line references a product absent from the
products table, so checkout hits a referential-integrity failure. -/
def danglingCartDb : DB :=
  ⟨[], [], [], [⟨1, 7, 99, 1⟩], [], []⟩

/-- One row per user-owned table, all owned by user 1. -/
def isoDb : DB :=
  ⟨[⟨1, 1, some "A", none, "en", false⟩], [], [],
   [⟨1, 1, 1, 1⟩],
   [⟨1, 1, 100, 20, 0, "pending", "cod", "addr", "ph"⟩],
   [⟨1, 1, 1, 1, 40, 40⟩]⟩

/-- A Banana order snapshot: product Banana currently priced 40.00 and a
past order of user 7 whose item snapshotted `unit_price = 40.00`. -/
def bananaOrderDb : DB :=
  ⟨[], [],
   [⟨1, "Banana", none, 40, none, 0, none, none, some "Fresh", "kg", 100, true⟩],
   [],
   [⟨1, 7, 100, 20, 0, "pending", "cod", "addr", "ph"⟩],
   [⟨1, 1, 1, 2, 40, 80⟩]⟩

/-! ## Theorems -/

/-- C9: every read of Category or Product — authenticated or anonymous —
returns exactly the active rows: an `is_active = false` row never appears,
and active rows are readable regardless of the requester identity (the
result is the same as the anonymous result for every requester). -/
theorem active_rows_world_readable (db : DB) (uid : Option UserId) :
    selectCategories uid db = db.categories.filter (fun r => r.is_active) ∧
    selectProducts uid db = db.products.filter (fun r => r.is_active) ∧
    selectCategories uid db = selectCategories none db ∧
    selectProducts uid db = selectProducts none db ∧
    (selectCategories uid db).all (fun r => r.is_active) = true ∧
    (selectProducts uid db).all (fun r => r.is_active) = true := by
  refine ⟨rfl, rfl, rfl, rfl, ?_, ?_⟩ <;>
    simp [selectCategories, selectProducts, rlsSelect, categoriesSelectPolicy,
      productsSelectPolicy, List.all_eq_true, List.mem_filter]

/-- Projecting the result of a lookup in a filtered, rewritten list is
unchanged when the rewrite preserves the filter, the search predicate and
the projection. -/
theorem map_find?_filter_map {α β : Type} (f : α → α) (pf q : α → Bool)
    (pr : α → β) (hp : ∀ a, pf (f a) = pf a) (hq : ∀ a, q (f a) = q a)
    (hpr : ∀ a, pr (f a) = pr a) :
    ∀ l : List α,
      Option.map pr (((l.map f).filter pf).find? q)
        = Option.map pr ((l.filter pf).find? q)
  | [] => rfl
  | a :: l => by
    simp only [List.map_cons, List.filter_cons, hp a]
    by_cases h : pf a = true
    · simp only [h, if_true]
      by_cases h2 : q a = true
      · rw [List.find?_cons_of_pos _ (by rw [hq a]; exact h2),
          List.find?_cons_of_pos _ h2]
        simp [hpr a]
      · rw [List.find?_cons_of_neg _ (by rw [hq a]; simpa using h2),
          List.find?_cons_of_neg _ h2]
        exact map_find?_filter_map f pf q pr hp hq hpr l
    · simp only [h, if_false]
      exact map_find?_filter_map f pf q pr hp hq hpr l

/-- A price change of product `pid` does not alter the minimal product
projection (`name, image_url`) of any lookup in the active-product list. -/
theorem find_orderView_priceUpdate (l : List ProductRow) (pid x : ProductId)
    (np : Money) :
    Option.map productOrderView
      (((l.map (fun p => if p.id = pid then { p with price := np } else p)).filter
        (fun p => p.is_active)).find? (fun p => p.id = x))
    = Option.map productOrderView
      ((l.filter (fun p => p.is_active)).find? (fun p => p.id = x)) := by
  apply map_find?_filter_map
  · intro a; by_cases h : a.id = pid <;> simp [h]
  · intro a; by_cases h : a.id = pid <;> simp [h]
  · intro a; by_cases h : a.id = pid <;> simp [h, productOrderView]

/-- C2: Order Item price fields are a frozen snapshot. A later update to
`Product.price` leaves every existing Order Item row unchanged, and the
order-history read (`Orders.fetchOrders`) — which displays the snapshot
`unit_price`, never the live `products.price` — returns identical results
before and after the price change. -/
theorem order_item_price_snapshot (db : DB) (pid : ProductId) (np : Money)
    (uid : UserId) :
    (adminUpdateProductPrice db pid np).order_items = db.order_items ∧
    fetchOrders uid (adminUpdateProductPrice db pid np) = fetchOrders uid db := by
  refine ⟨rfl, ?_⟩
  unfold fetchOrders
  apply List.map_congr_left
  intro o _
  have hinner :
      ((selectOrderItems (some uid) (adminUpdateProductPrice db pid np)).filter
        (fun i => i.order_id = o.id)).map
        (fun i => OrderItemView.mk i.quantity i.unit_price
          (((selectProducts (some uid) (adminUpdateProductPrice db pid np)).find?
            (fun p => p.id = i.product_id)).map productOrderView))
      = ((selectOrderItems (some uid) db).filter (fun i => i.order_id = o.id)).map
        (fun i => OrderItemView.mk i.quantity i.unit_price
          (((selectProducts (some uid) db).find?
            (fun p => p.id = i.product_id)).map productOrderView)) := by
    apply List.map_congr_left
    intro i _
    have := find_orderView_priceUpdate db.products pid i.product_id np
    exact congrArg (fun z => OrderItemView.mk i.quantity i.unit_price z) this
  exact congrArg (fun z => OrderView.mk o.id o.total_amount o.delivery_fee
    o.status o.payment_method z) hinner

/-- C2 scenario check: with Banana currently at 40.00 and a past order
item snapshotted at `unit_price = 40.00`, raising Banana's price to 45.00
leaves the displayed order history — including its `unit_price` — at the
snapshot values. -/
theorem order_item_price_snapshot_banana :
    (fetchOrders 7 (adminUpdateProductPrice bananaOrderDb 1 45)).map
      (fun o => o.order_items.map (fun i => i.unit_price)) = [[40]] ∧
    (adminUpdateProductPrice bananaOrderDb 1 45).products.map (fun p => p.price)
      = [45] := by
  constructor
  · simp [fetchOrders, adminUpdateProductPrice, selectOrders, selectOrderItems,
      selectProducts, rlsSelect, ordersSelectPolicy, orderItemsSelectPolicy,
      productsSelectPolicy, bananaOrderDb, productOrderView]
  · simp [adminUpdateProductPrice, bananaOrderDb]

/-- C7 counterexample: the claim says `setQuantity(user, product, q)` with
`q ≤ 0` — "zero and negative alike" — deletes the existing Cart Line. But
`ProductCard.updateQuantity` begins with `if (newQuantity < 0) return;`,
so at `q = -1` with a line present for (user 1, product 1) the call is a
no-op and the line survives. -/
theorem setQuantity_negative_keeps_line :
    setQuantity oneLineDb 1 1 (-1) = oneLineDb ∧
    oneLineDb.cart.countP (fun c => c.user_id = 1 && c.product_id = 1) = 1 := by
  exact ⟨rfl, by decide⟩

/-- C7 (amended): for `q < 0`, `setQuantity` is a no-op regardless of
whether a line exists; for `q = 0` it deletes the existing line for
(user, product) if present, is a no-op if absent, and repeated calls are
idempotent, leaving no Cart Line for the pair. -/
theorem setQuantity_nonpositive (db : DB) (uid : UserId) (pid : ProductId)
    (q : Int) (hq : q ≤ 0) :
    (q < 0 → setQuantity db uid pid q = db) ∧
    (q = 0 →
      (setQuantity db uid pid q).cart.filter
        (fun c => c.user_id = uid && c.product_id = pid) = [] ∧
      setQuantity (setQuantity db uid pid q) uid pid q = setQuantity db uid pid q ∧
      (db.cart.filter (fun c => c.user_id = uid && c.product_id = pid) = [] →
        setQuantity db uid pid q = db)) := by
  have hred : ∀ d : DB, setQuantity d uid pid 0 =
      { d with cart := d.cart.filter (fun c =>
          !(cartDeletePolicy (some uid) c && c.user_id = uid && c.product_id = pid)) } := by
    intro d; simp [setQuantity]
  constructor
  · intro h
    simp [setQuantity, h]
  · intro h
    subst h
    refine ⟨?_, ?_, ?_⟩
    · rw [hred]
      rw [List.filter_filter]
      apply List.filter_eq_nil_iff.mpr
      intro c _
      by_cases h1 : c.user_id = uid <;> by_cases h2 : c.product_id = pid <;>
        simp [h1, h2, cartDeletePolicy]
    · simp only [hred]
      congr 1
      rw [List.filter_filter]
      apply List.filter_congr
      intro c _
      cases cartDeletePolicy (some uid) c && c.user_id = uid && c.product_id = pid <;> rfl
    · intro h
      rw [hred]
      have hself : db.cart.filter (fun c =>
          !(cartDeletePolicy (some uid) c && c.user_id = uid && c.product_id = pid))
          = db.cart := by
        apply List.filter_eq_self.mpr
        intro c hc
        by_cases h1 : c.user_id = uid <;> by_cases h2 : c.product_id = pid <;>
          simp [h1, h2, cartDeletePolicy]
        exact absurd
          (show (decide (c.user_id = uid) && decide (c.product_id = pid)) = true by
            simp [h1, h2])
          (List.filter_eq_nil_iff.mp h c hc)
      rw [hself]

/-- Witness for the amended C7 at (user 1, product 1, q = 0) on a cart
holding one line for that pair. -/
theorem setQuantity_nonpositive_witness :
    ((-1 : Int) ≤ 0 ∧ (0 : Int) ≤ 0) ∧
    ((0 : Int) = 0 →
      (setQuantity oneLineDb 1 1 0).cart.filter
        (fun c => c.user_id = 1 && c.product_id = 1) = [] ∧
      setQuantity (setQuantity oneLineDb 1 1 0) 1 1 0 = setQuantity oneLineDb 1 1 0 ∧
      (oneLineDb.cart.filter (fun c => c.user_id = 1 && c.product_id = 1) = [] →
        setQuantity oneLineDb 1 1 0 = oneLineDb)) := by
  exact ⟨⟨by decide, by decide⟩,
    (setQuantity_nonpositive oneLineDb 1 1 0 (by decide)).2⟩

/-- Rewriting quantities does not change cart keys. -/
theorem keys_update_quantity (l : List CartRow) (uid : UserId) (pid : ProductId)
    (q : Int) :
    (l.map (fun c => if c.user_id = uid && c.product_id = pid then
        { c with quantity := q } else c)).map cartKey = l.map cartKey := by
  rw [List.map_map]
  apply List.map_congr_left
  intro c _
  by_cases h : (decide (c.user_id = uid) && decide (c.product_id = pid)) = true <;>
    simp [Function.comp, h, cartKey]

/-- In a key-unique cart that contains the (uid, pid) pair, exactly one
row matches the pair. -/
theorem nodup_any_countP_one (l : List CartRow) (uid : UserId) (pid : ProductId)
    (h : (l.map cartKey).Nodup)
    (hex : l.any (fun c => c.user_id = uid && c.product_id = pid) = true) :
    l.countP (fun c => c.user_id = uid && c.product_id = pid) = 1 := by
  induction l with
  | nil => simp at hex
  | cons hd tl ih =>
    rw [List.map_cons, List.nodup_cons] at h
    obtain ⟨hnotin, htl⟩ := h
    by_cases hhd : (decide (hd.user_id = uid) && decide (hd.product_id = pid)) = true
    · have hkey : cartKey hd = (uid, pid) := by
        simp only [Bool.and_eq_true, decide_eq_true_eq] at hhd
        simp [cartKey, hhd.1, hhd.2]
      have hzero : tl.countP (fun c => c.user_id = uid && c.product_id = pid) = 0 := by
        apply List.countP_eq_zero.mpr
        intro c hc hcp
        apply hnotin
        simp only [Bool.and_eq_true, decide_eq_true_eq] at hcp
        have : cartKey c = cartKey hd := by
          rw [hkey]; simp [cartKey, hcp.1, hcp.2]
        exact this ▸ List.mem_map_of_mem cartKey hc
      rw [List.countP_cons_of_pos (fun c => c.user_id = uid && c.product_id = pid)
        tl hhd, hzero]
    · have hex' : tl.any (fun c => c.user_id = uid && c.product_id = pid) = true := by
        rcases List.any_eq_true.mp hex with ⟨c, hc, hcp⟩
        rcases List.mem_cons.mp hc with rfl | hmem
        · exact absurd hcp hhd
        · exact List.any_eq_true.mpr ⟨c, hmem, hcp⟩
      rw [List.countP_cons_of_neg (fun c => c.user_id = uid && c.product_id = pid)
        tl hhd]
      exact ih htl hex'

/-- `cartUpsert` preserves the (user, product) uniqueness invariant. -/
theorem cartUpsert_nodup (db : DB) (uid : UserId) (pid : ProductId) (q : Int)
    (h : cartKeysUnique db) : cartKeysUnique (cartUpsert db uid pid q) := by
  unfold cartUpsert cartKeysUnique at *
  by_cases hex : db.cart.any (fun c => c.user_id = uid && c.product_id = pid) = true
  · rw [if_pos hex]
    show ((db.cart.map _).map cartKey).Nodup
    rw [keys_update_quantity]
    exact h
  · rw [if_neg hex]
    show ((db.cart ++ [(⟨cartFreshId db, uid, pid, q⟩ : CartRow)]).map cartKey).Nodup
    rw [List.map_append, List.nodup_append]
    refine ⟨h, List.nodup_singleton _, ?_⟩
    intro k hk hk1
    simp only [List.map_cons, List.map_nil, List.mem_singleton] at hk1
    subst hk1
    rcases List.mem_map.mp hk with ⟨c, hc, hck⟩
    apply hex
    apply List.any_eq_true.mpr
    refine ⟨c, hc, ?_⟩
    have h1 : c.user_id = uid := congrArg Prod.fst hck
    have h2 : c.product_id = pid := congrArg Prod.snd hck
    simp [h1, h2]

/-- After `cartUpsert`, exactly one cart row matches (uid, pid). -/
theorem cartUpsert_countP (db : DB) (uid : UserId) (pid : ProductId) (q : Int)
    (h : cartKeysUnique db) :
    (cartUpsert db uid pid q).cart.countP
      (fun c => c.user_id = uid && c.product_id = pid) = 1 := by
  unfold cartUpsert
  by_cases hex : db.cart.any (fun c => c.user_id = uid && c.product_id = pid) = true
  · rw [if_pos hex]
    show (db.cart.map _).countP _ = 1
    rw [List.countP_map]
    have : db.cart.countP
        ((fun c => c.user_id = uid && c.product_id = pid) ∘ fun c =>
          if c.user_id = uid && c.product_id = pid then { c with quantity := q } else c)
        = db.cart.countP (fun c => c.user_id = uid && c.product_id = pid) := by
      apply List.countP_congr
      intro c _
      by_cases hc : (decide (c.user_id = uid) && decide (c.product_id = pid)) = true <;>
        simp [Function.comp, hc]
    rw [this]
    exact nodup_any_countP_one db.cart uid pid h hex
  · rw [if_neg hex]
    show (db.cart ++ [(⟨cartFreshId db, uid, pid, q⟩ : CartRow)]).countP
      (fun c => c.user_id = uid && c.product_id = pid) = 1
    rw [List.countP_append]
    have h0 : db.cart.countP (fun c => c.user_id = uid && c.product_id = pid) = 0 := by
      apply List.countP_eq_zero.mpr
      intro c hc hcp
      exact hex (List.any_eq_true.mpr ⟨c, hc, hcp⟩)
    simp [h0]

/-- After `cartUpsert`, every row matching (uid, pid) has quantity `q`. -/
theorem cartUpsert_matches (db : DB) (uid : UserId) (pid : ProductId) (q : Int) :
    ∀ c ∈ (cartUpsert db uid pid q).cart,
      (c.user_id = uid && c.product_id = pid) = true → c.quantity = q := by
  unfold cartUpsert
  by_cases hex : db.cart.any (fun c => c.user_id = uid && c.product_id = pid) = true
  · rw [if_pos hex]
    intro c hc hcp
    show c.quantity = q
    rcases List.mem_map.mp hc with ⟨c₀, _, hck⟩
    by_cases h₀ : (decide (c₀.user_id = uid) && decide (c₀.product_id = pid)) = true
    · rw [if_pos h₀] at hck
      rw [← hck]
    · rw [if_neg h₀] at hck
      exact absurd (hck ▸ hcp) h₀
  · rw [if_neg hex]
    intro c hc hcp
    rcases List.mem_append.mp hc with hmem | hmem
    · exact absurd (List.any_eq_true.mpr ⟨c, hmem, hcp⟩) hex
    · rw [List.mem_singleton.mp hmem]

/-- C6: for every quantity `q > 0`, after `setQuantity(user, product, q)`
exactly one Cart Line for (user, product) exists and its quantity is `q`,
whether a prior line existed (quantity replaced) or not (line inserted). -/
theorem setQuantity_positive_exactly_one (db : DB) (uid : UserId)
    (pid : ProductId) (q : Int) (hq : 0 < q) (h : cartKeysUnique db) :
    (setQuantity db uid pid q).cart.countP
      (fun c => c.user_id = uid && c.product_id = pid) = 1 ∧
    ∀ c ∈ (setQuantity db uid pid q).cart,
      (c.user_id = uid && c.product_id = pid) = true → c.quantity = q := by
  have h1 : ¬ q < 0 := by omega
  have h2 : ¬ q = 0 := by omega
  simp only [setQuantity, if_neg h1, if_neg h2]
  exact ⟨cartUpsert_countP db uid pid q h, cartUpsert_matches db uid pid q⟩

/-- Witness for C6: on a cart where user 1 already holds product 1 with
quantity 2, `setQuantity 1 1 3` leaves exactly one line with quantity 3. -/
theorem setQuantity_positive_witness :
    ((0 : Int) < 3 ∧ cartKeysUnique oneLineDb) ∧
    ((setQuantity oneLineDb 1 1 3).cart.countP
      (fun c => c.user_id = 1 && c.product_id = 1) = 1 ∧
    ∀ c ∈ (setQuantity oneLineDb 1 1 3).cart,
      (c.user_id = 1 && c.product_id = 1) = true → c.quantity = 3) := by
  exact ⟨⟨by decide, by decide⟩,
    setQuantity_positive_exactly_one oneLineDb 1 1 3 (by decide) (by decide)⟩

/-- A state whose cart is a filtering of a key-unique cart is key-unique. -/
theorem cartKeysUnique_filter (db : DB) (p : CartRow → Bool)
    (h : cartKeysUnique db) : ((db.cart.filter p).map cartKey).Nodup :=
  List.Sublist.nodup (List.Sublist.map cartKey (List.filter_sublist db.cart)) h

/-- C5: the (user, product) uniqueness of Cart Lines is preserved by every
cart-touching operation of the client — `cartUpsert` (and `addToCart`,
which is an upsert), `setQuantity`, the Cart page's `updateQuantity` by
row id, and checkout's cart clearing — and two upserts for the same
(user, product), the storage-layer serialization of two concurrent upsert
requests, leave exactly one merged row for the pair. -/
theorem cart_line_uniqueness (db : DB) (uid : UserId) (pid : ProductId)
    (cid : RowId) (q q' : Int) (h : cartKeysUnique db) :
    cartKeysUnique (cartUpsert db uid pid q) ∧
    cartKeysUnique (addToCart db uid pid q) ∧
    cartKeysUnique (setQuantity db uid pid q) ∧
    cartKeysUnique (updateQuantityById db uid cid q) ∧
    (∀ addr ph pm fee oid, cartKeysUnique (checkout db uid addr ph pm fee oid).1) ∧
    (cartUpsert (cartUpsert db uid pid q) uid pid q').cart.countP
      (fun c => c.user_id = uid && c.product_id = pid) = 1 := by
  refine ⟨cartUpsert_nodup db uid pid q h, cartUpsert_nodup db uid pid (q + 1) h,
    ?_, ?_, ?_, cartUpsert_countP (cartUpsert db uid pid q) uid pid q'
      (cartUpsert_nodup db uid pid q h)⟩
  · unfold setQuantity
    by_cases h1 : q < 0
    · rw [if_pos h1]; exact h
    · rw [if_neg h1]
      by_cases h2 : q = 0
      · rw [if_pos h2]
        exact cartKeysUnique_filter db _ h
      · rw [if_neg h2]
        exact cartUpsert_nodup db uid pid q h
  · unfold updateQuantityById
    by_cases h1 : q < 0
    · rw [if_pos h1]; exact h
    · rw [if_neg h1]
      by_cases h2 : q = 0
      · rw [if_pos h2]
        exact cartKeysUnique_filter db _ h
      · rw [if_neg h2]
        show ((db.cart.map _).map cartKey).Nodup
        rw [List.map_map]
        have : (cartKey ∘ fun c =>
            if cartUpdatePolicy (some uid) c && c.id = cid then
              { c with quantity := q } else c) = cartKey := by
          funext c
          by_cases hc : (cartUpdatePolicy (some uid) c && decide (c.id = cid)) = true <;>
            simp [Function.comp, hc, cartKey]
        rw [this]
        exact h
  · intro addr ph pm fee oid
    unfold checkout
    by_cases he : (db.cart.filter (fun c => c.user_id = uid)).isEmpty
    · simp only [he, if_true]
      exact h
    · simp only [he, if_false]
      cases hb : buildItems db oid (freshOrderItemId db)
          (db.cart.filter (fun c => c.user_id = uid)) with
      | error e => exact h
      | ok items => exact cartKeysUnique_filter db _ h

/-- Witness for C5 on a one-line cart held by user 1. -/
theorem cart_line_uniqueness_witness :
    cartKeysUnique oneLineDb ∧
    (cartKeysUnique (cartUpsert oneLineDb 1 1 5) ∧
    cartKeysUnique (addToCart oneLineDb 1 1 5) ∧
    cartKeysUnique (setQuantity oneLineDb 1 1 5) ∧
    cartKeysUnique (updateQuantityById oneLineDb 1 1 5) ∧
    (∀ addr ph pm fee oid,
      cartKeysUnique (checkout oneLineDb 1 addr ph pm fee oid).1) ∧
    (cartUpsert (cartUpsert oneLineDb 1 1 5) 1 1 6).cart.countP
      (fun c => c.user_id = 1 && c.product_id = 1) = 1) := by
  exact ⟨by decide, cart_line_uniqueness oneLineDb 1 1 1 5 6 (by decide)⟩

/-- Core facts about one `handle_new_user` run for a fresh identity:
it succeeds, exactly one profile for the identity exists afterwards, the
profile fields are (`full_name` from metadata, `phone` NULL, `language`
'en', consent false), and a second run fails with a uniqueness
violation. -/
theorem handle_new_user_spec (db : DB) (uid : UserId) (meta : SignupMetadata)
    (hfresh : ∀ r ∈ db.profiles, r.user_id ≠ uid) :
    ∃ db', handle_new_user db uid meta = .ok db' ∧
      db'.profiles.countP (fun r => r.user_id = uid) = 1 ∧
      (db'.profiles.filter (fun r => r.user_id = uid)).map
        (fun r => (r.full_name, r.phone, r.language, r.data_collection_consent))
        = [(meta.full_name, none, "en", false)] ∧
      handle_new_user db' uid meta = .error () := by
  have hany : ¬ db.profiles.any (fun r => r.user_id = uid) = true := by
    intro hc
    rcases List.any_eq_true.mp hc with ⟨r, hr, hru⟩
    exact hfresh r hr (by simpa using hru)
  refine ⟨_, by rw [handle_new_user, if_neg hany], ?_, ?_, ?_⟩
  · rw [List.countP_append]
    have h0 : db.profiles.countP (fun r => r.user_id = uid) = 0 :=
      List.countP_eq_zero.mpr (fun r hr => by simpa using hfresh r hr)
    simp [h0]
  · rw [List.filter_append]
    have h0 : db.profiles.filter (fun r => r.user_id = uid) = [] :=
      List.filter_eq_nil_iff.mpr (fun r hr => by simpa using hfresh r hr)
    rw [h0]
    simp
  · rw [handle_new_user, if_pos]
    rw [List.any_append]
    simp

/-- C8: for every newly created User Identity (one with no pre-existing
profile row), exactly one Profile with its `user_id` exists immediately
after identity creation, with `full_name` from the signup metadata,
`language = "en"` and `data_collection_consent = false`; a second
provisioning invocation for the same identity fails with a uniqueness
violation instead of creating a duplicate. -/
theorem profile_auto_provisioning (db : DB) (uid : UserId)
    (meta : SignupMetadata) (hfresh : ∀ r ∈ db.profiles, r.user_id ≠ uid) :
    ∃ db', createIdentity db uid meta = .ok db' ∧
      db'.profiles.countP (fun r => r.user_id = uid) = 1 ∧
      (db'.profiles.filter (fun r => r.user_id = uid)).map
        (fun r => (r.full_name, r.phone, r.language, r.data_collection_consent))
        = [(meta.full_name, none, "en", false)] ∧
      createIdentity db' uid meta = .error () :=
  handle_new_user_spec db uid meta hfresh

/-- Witness for C8 on an empty database and identity 5. -/
theorem profile_auto_provisioning_witness :
    (∀ r ∈ (⟨[], [], [], [], [], []⟩ : DB).profiles, r.user_id ≠ 5) ∧
    ∃ db', createIdentity ⟨[], [], [], [], [], []⟩ 5
        (signupMetadata "Asha" "111" "en" true) = .ok db' ∧
      db'.profiles.countP (fun r => r.user_id = 5) = 1 ∧
      (db'.profiles.filter (fun r => r.user_id = 5)).map
        (fun r => (r.full_name, r.phone, r.language, r.data_collection_consent))
        = [((signupMetadata "Asha" "111" "en" true).full_name, none, "en", false)] ∧
      createIdentity db' 5 (signupMetadata "Asha" "111" "en" true) = .error () := by
  exact ⟨by simp, profile_auto_provisioning ⟨[], [], [], [], [], []⟩ 5
    (signupMetadata "Asha" "111" "en" true) (by simp)⟩

/-- C10: even when the signup form supplies phone, language and
data-collection consent in the metadata (as `AuthForm.handleSubmit` does),
the auto-provisioned profile has `phone` NULL, `language = "en"` and
`data_collection_consent = false`: `handle_new_user` copies only
`full_name` and ignores every other metadata field. -/
theorem signup_choices_not_propagated (db : DB) (uid : UserId)
    (fullName phoneNum lang : String) (consent : Bool)
    (hfresh : ∀ r ∈ db.profiles, r.user_id ≠ uid) :
    ∃ db', createIdentity db uid
        (signupMetadata fullName phoneNum lang consent) = .ok db' ∧
      (db'.profiles.filter (fun r => r.user_id = uid)).map
        (fun r => (r.full_name, r.phone, r.language, r.data_collection_consent))
        = [(some fullName, none, "en", false)] := by
  obtain ⟨db', h1, _, h3, _⟩ := handle_new_user_spec db uid
    (signupMetadata fullName phoneNum lang consent) hfresh
  exact ⟨db', h1, by simpa [signupMetadata] using h3⟩

/-- Witness for C10: a signup choosing Hindi and granting consent still
yields an `"en"`, consent-false profile. -/
theorem signup_choices_not_propagated_witness :
    (∀ r ∈ (⟨[], [], [], [], [], []⟩ : DB).profiles, r.user_id ≠ 6) ∧
    ∃ db', createIdentity ⟨[], [], [], [], [], []⟩ 6
        (signupMetadata "Ravi" "222" "hi" true) = .ok db' ∧
      (db'.profiles.filter (fun r => r.user_id = 6)).map
        (fun r => (r.full_name, r.phone, r.language, r.data_collection_consent))
        = [(some "Ravi", none, "en", false)] := by
  exact ⟨by simp, signup_choices_not_propagated ⟨[], [], [], [], [], []⟩ 6
    "Ravi" "222" "hi" true (by simp)⟩

/-- C3: checkout is atomic. Whenever a checkout execution fails partway
(for any reported error), the resulting state is exactly the input state:
no Order row and no Order Item row from that checkout exists, and the
user's Cart Lines are exactly as before the call. -/
theorem checkout_rollback_on_failure (db : DB) (uid : UserId)
    (addr ph pm : String) (fee : Money) (oid : OrderId) (e : CheckoutError)
    (hfail : (checkout db uid addr ph pm fee oid).2 = some e) :
    (checkout db uid addr ph pm fee oid).1 = db ∧
    (checkout db uid addr ph pm fee oid).1.cart = db.cart ∧
    (checkout db uid addr ph pm fee oid).1.orders = db.orders ∧
    (checkout db uid addr ph pm fee oid).1.order_items = db.order_items := by
  by_cases he : (db.cart.filter (fun c => c.user_id = uid)).isEmpty
  · simp [checkout, he]
  · cases hb : buildItems db oid (freshOrderItemId db)
        (db.cart.filter (fun c => c.user_id = uid)) with
    | error e' => simp [checkout, he, hb]
    | ok items =>
      exfalso
      rw [checkout] at hfail
      simp only [he, if_false, hb] at hfail
      exact Option.noConfusion hfail

/-- Witness for C3: a cart line referencing a missing product makes
checkout fail with a referential-integrity error and leaves the state
untouched. -/
theorem checkout_rollback_witness :
    (checkout danglingCartDb 7 "a" "p" "cod" 20 100).2
      = some CheckoutError.missingProduct ∧
    ((checkout danglingCartDb 7 "a" "p" "cod" 20 100).1 = danglingCartDb ∧
    (checkout danglingCartDb 7 "a" "p" "cod" 20 100).1.cart = danglingCartDb.cart ∧
    (checkout danglingCartDb 7 "a" "p" "cod" 20 100).1.orders = danglingCartDb.orders ∧
    (checkout danglingCartDb 7 "a" "p" "cod" 20 100).1.order_items
      = danglingCartDb.order_items) := by
  exact ⟨by decide, checkout_rollback_on_failure danglingCartDb 7 "a" "p" "cod"
    20 100 CheckoutError.missingProduct (by decide)⟩

/-- Each order item built by `buildItems` snapshots its cart line. -/
theorem buildItems_ok_forall₂ (db : DB) (oid : OrderId) :
    ∀ (l : List CartRow) (nid : RowId) (items : List OrderItemRow),
      buildItems db oid nid l = .ok items →
      List.Forall₂ (snapshotOf db oid) l items := by
  intro l
  induction l with
  | nil =>
    intro nid items h
    simp only [buildItems] at h
    cases h
    exact List.Forall₂.nil
  | cons c rest ih =>
    intro nid items h
    rw [buildItems] at h
    cases hf : db.products.find? (fun p => p.id = c.product_id) with
    | none => rw [hf] at h; exact absurd h (by simp)
    | some p =>
      rw [hf] at h
      simp only [] at h
      by_cases hq : c.quantity ≤ 0
      · rw [if_pos hq] at h; exact absurd h (by simp)
      · rw [if_neg hq] at h
        cases hrest : buildItems db oid (nid + 1) rest with
        | error e =>
          rw [hrest] at h
          exact absurd h (by simp [Bind.bind, Except.bind])
        | ok restItems =>
          rw [hrest] at h
          simp only [Bind.bind, Except.bind, Except.ok.injEq] at h
          subst h
          exact List.Forall₂.cons ⟨rfl, rfl, rfl, p, hf, rfl, rfl⟩ (ih _ _ hrest)

/-- The sum of snapshot `total_price`s equals the spec's sum of (current
product price × quantity) over the materialized cart lines. -/
theorem forall₂_sum_total (db : DB) (oid : OrderId) (l : List CartRow)
    (items : List OrderItemRow) (hf : List.Forall₂ (snapshotOf db oid) l items) :
    (items.map (fun i => i.total_price)).sum
      = (l.map (fun c =>
          (match db.products.find? (fun p => p.id = c.product_id) with
           | some p => p.price
           | none => 0) * (c.quantity : Money))).sum := by
  induction hf with
  | nil => rfl
  | cons hr _ ih =>
    obtain ⟨_, _, _, p, hp, _, ht⟩ := hr
    simp only [List.map_cons, List.sum_cons, ih, ht, hp]

/-- C4: a successful checkout creates exactly one new Order with status
`pending` and `total_amount` = Σ (current product price × quantity) + fee,
one Order Item per Cart Line with `unit_price` the product's current
price and `total_price = unit_price × quantity`, and clears the user's
Cart Lines. -/
theorem checkout_success_spec (db : DB) (uid : UserId) (addr ph pm : String)
    (fee : Money) (oid : OrderId)
    (hok : (checkout db uid addr ph pm fee oid).2 = none) :
    checkoutPost db uid addr ph pm fee oid := by
  by_cases he : (db.cart.filter (fun c => c.user_id = uid)).isEmpty
  · exfalso; rw [checkout] at hok; simp [he] at hok
  · cases hb : buildItems db oid (freshOrderItemId db)
        (db.cart.filter (fun c => c.user_id = uid)) with
    | error e =>
      exfalso; rw [checkout] at hok
      simp only [he, if_false, hb] at hok
      exact Option.noConfusion hok
    | ok items =>
      have hred : checkout db uid addr ph pm fee oid =
          ({ db with
              orders := db.orders ++
                [⟨oid, uid, (items.map (fun i => i.total_price)).sum + fee, fee, 0,
                  "pending", pm, addr, ph⟩],
              order_items := db.order_items ++ items,
              cart := db.cart.filter (fun c => !(c.user_id = uid)) }, none) := by
        rw [checkout]
        simp only [he, if_false, hb]
        rfl
      refine ⟨⟨oid, uid, (items.map (fun i => i.total_price)).sum + fee, fee, 0,
          "pending", pm, addr, ph⟩, items,
        by rw [hred], rfl, rfl, rfl, rfl, rfl, ?_, by rw [hred], ?_, ?_, ?_⟩
      · show (items.map (fun i => i.total_price)).sum + fee = specTotalAmount db uid fee
        unfold specTotalAmount
        exact congrArg (· + fee)
          (forall₂_sum_total db oid _ items (buildItems_ok_forall₂ db oid _ _ _ hb))
      · exact buildItems_ok_forall₂ db oid _ _ _ hb
      · intro hnil
        exact he (by simp [hnil])
      · rw [hred]
        show (db.cart.filter (fun c => !(c.user_id = uid))).filter
          (fun c => c.user_id = uid) = []
        rw [List.filter_filter]
        apply List.filter_eq_nil_iff.mpr
        intro c _
        by_cases hc : c.user_id = uid <;> simp [hc]

/-- Witness for C4: the spec's scenario — cart {(Banana, qty 2, 40.00),
(Milk, qty 1, 55.00)}, fee 20.00 — checks out successfully into one
pending order with `total_amount` 155.00, items priced 40.00/80.00 and
55.00/55.00, and an empty cart. -/
theorem checkout_success_witness :
    (checkout scenarioDb 7 "addr" "ph" "cod" 20 100).2 = none ∧
    checkoutPost scenarioDb 7 "addr" "ph" "cod" 20 100 ∧
    (checkout scenarioDb 7 "addr" "ph" "cod" 20 100).1.orders.map
      (fun o => (o.total_amount, o.status)) = [(155, "pending")] ∧
    (checkout scenarioDb 7 "addr" "ph" "cod" 20 100).1.order_items.map
      (fun i => (i.unit_price, i.total_price)) = [(40, 80), (55, 55)] ∧
    (checkout scenarioDb 7 "addr" "ph" "cod" 20 100).1.cart = [] ∧
    calculateTotal (fetchCartItems 7 scenarioDb) + deliveryFee = 155 := by
  refine ⟨by decide, checkout_success_spec scenarioDb 7 "addr" "ph" "cod" 20 100
    (by decide), ?_, ?_, by decide, ?_⟩
  · simp [checkout, buildItems, scenarioDb, freshOrderItemId, Bind.bind,
      Except.bind]
    norm_num
  · simp [checkout, buildItems, scenarioDb, freshOrderItemId, Bind.bind,
      Except.bind]
    norm_num
  · simp [calculateTotal, fetchCartItems, selectCart, selectProducts, rlsSelect,
      scenarioDb, cartSelectPolicy, productsSelectPolicy, productCartView,
      deliveryFee, List.find?, List.filterMap]
    norm_num

/-- A policy-guarded rewrite leaves rows outside the policy untouched:
filtering by a predicate disjoint from both the policy and the rewritten
rows' image gives the same result before and after. -/
theorem filter_if_policy {α : Type} (policy owner : α → Bool) (f : α → α)
    (l : List α)
    (hpol : ∀ r ∈ l, policy r = true → owner r = false ∧ owner (f r) = false) :
    (l.map (fun r => if policy r then f r else r)).filter owner
      = l.filter owner := by
  revert hpol
  induction l with
  | nil => intro _; rfl
  | cons a l ih =>
    intro hpol
    have hrest : ∀ r ∈ l, policy r = true → owner r = false ∧ owner (f r) = false :=
      fun r hr h => hpol r (List.mem_cons_of_mem a hr) h
    by_cases hp : policy a = true
    · obtain ⟨h1, h2⟩ := hpol a (List.mem_cons_self a l) hp
      simp [hp, h1, h2, ih hrest]
    · by_cases ho : owner a = true <;> simp [hp, ho, ih hrest]

/-- A successful RLS `UPDATE` preserves every row outside the update
policy (the WITH CHECK clause forbids rewriting a row into the protected
set). -/
theorem rlsUpdate_ok_filter {α : Type} {policy check owner : α → Bool}
    {f : α → α} {l rows : List α} {n : Nat}
    (hpol : ∀ r, policy r = true → owner r = false)
    (hcheck : ∀ r, check r = true → owner r = false)
    (h : rlsUpdate policy check f l = .ok (rows, n)) :
    rows.filter owner = l.filter owner := by
  unfold rlsUpdate at h
  by_cases hany : l.any (fun r => policy r && !check (f r)) = true
  · rw [if_pos hany] at h
    exact absurd h (by simp)
  · rw [if_neg hany] at h
    have hno : ∀ r ∈ l, policy r = true → check (f r) = true := by
      intro r hr hp
      by_contra hc
      exact hany (List.any_eq_true.mpr ⟨r, hr, by simp [hp, hc]⟩)
    cases h
    exact filter_if_policy policy owner f l
      (fun r hr hp => ⟨hpol r hp, hcheck (f r) (hno r hr hp)⟩)

/-- C1: cross-user isolation. For distinct identities `u1 ≠ u2` (and
primary-key-unique orders), every read issued as `u2` of Profile, Cart,
Order or Order Item rows owned by `u1` returns nothing, every write
issued as `u2` affects zero of `u1`'s rows and leaves them unchanged, and
inserts claiming `u1`'s ownership — directly or transitively through the
parent Order for Order Items — are rejected by the storage layer. -/
theorem rls_cross_user_isolation (db : DB) (u1 u2 : UserId)
    (hne : u1 ≠ u2) (hpk : ordersPKUnique db) : crossUserIsolated db u1 u2 := by
  refine ⟨?_, ?_, ?_, ?_, ?_, ?_, ?_, ?_, ?_, ?_, ?_, ?_, ?_, ?_, ?_, ?_⟩
  · -- profiles read
    intro r hr
    have h2 := (List.mem_filter.mp hr).2
    simp only [profilesSelectPolicy, decide_eq_true_eq, Option.some.injEq] at h2
    exact fun hc => hne ((h2.trans hc).symm)
  · -- cart read
    intro r hr
    have h2 := (List.mem_filter.mp hr).2
    simp only [cartSelectPolicy, decide_eq_true_eq, Option.some.injEq] at h2
    exact fun hc => hne ((h2.trans hc).symm)
  · -- orders read
    intro r hr
    have h2 := (List.mem_filter.mp hr).2
    simp only [ordersSelectPolicy, decide_eq_true_eq, Option.some.injEq] at h2
    exact fun hc => hne ((h2.trans hc).symm)
  · -- order_items read, transitively through the parent order
    intro i hi o ho hoid
    have h2 := (List.mem_filter.mp hi).2
    unfold orderItemsSelectPolicy at h2
    rcases List.any_eq_true.mp h2 with ⟨o2, ho2f, ho2id⟩
    have ho2 := List.mem_filter.mp ho2f
    simp only [decide_eq_true_eq, Option.some.injEq] at ho2id
    have ho2u : u2 = o2.user_id := by
      have := ho2.2
      simpa using this
    intro hu1
    have heq : o = o2 :=
      List.inj_on_of_nodup_map hpk ho ho2.1 (by rw [hoid, ho2id])
    rw [heq] at hu1
    exact hne ((ho2u.trans hu1).symm)
  · -- profiles update
    intro f
    constructor
    · apply List.countP_eq_zero.mpr
      intro r _
      simp only [profilesUpdatePolicy, Bool.and_eq_true, decide_eq_true_eq,
        Option.some.injEq, not_and]
      exact fun h hc => hne ((h.trans hc).symm)
    · intro rows n h
      refine rlsUpdate_ok_filter ?_ ?_ h <;>
        (intro r hr;
         simp only [profilesUpdatePolicy, decide_eq_true_eq, Option.some.injEq] at hr;
         simp only [decide_eq_false_iff_not];
         exact fun hc => hne ((hr.trans hc).symm))
  · -- cart update
    intro f
    constructor
    · apply List.countP_eq_zero.mpr
      intro r _
      simp only [cartUpdatePolicy, Bool.and_eq_true, decide_eq_true_eq,
        Option.some.injEq, not_and]
      exact fun h hc => hne ((h.trans hc).symm)
    · intro rows n h
      refine rlsUpdate_ok_filter ?_ ?_ h <;>
        (intro r hr;
         simp only [cartUpdatePolicy, decide_eq_true_eq, Option.some.injEq] at hr;
         simp only [decide_eq_false_iff_not];
         exact fun hc => hne ((hr.trans hc).symm))
  · -- cart delete
    intro p
    constructor
    · unfold deleteCart rlsDelete
      show (db.cart.filter _).filter _ = _
      rw [List.filter_filter]
      apply List.filter_congr
      intro c _
      by_cases hc : c.user_id = u1
      · have : cartDeletePolicy (some u2) c = false := by
          simp only [cartDeletePolicy, decide_eq_false_iff_not, Option.some.injEq]
          exact fun h => hne ((h.trans hc).symm)
        simp [this, hc]
      · simp [hc]
    · apply List.countP_eq_zero.mpr
      intro r _
      simp only [cartDeletePolicy, Bool.and_eq_true, decide_eq_true_eq,
        Option.some.injEq, not_and, and_imp]
      exact fun h _ hc => hne ((h.trans hc).symm)
  · -- profiles insert forging u1
    intro r hr
    unfold insertProfileAs rlsInsert
    rw [if_neg]
    simp only [profilesInsertCheck, decide_eq_true_eq, Option.some.injEq, hr]
    exact fun h => hne h.symm
  · -- cart insert forging u1
    intro r hr
    unfold insertCartAs rlsInsert
    rw [if_neg]
    simp only [cartInsertCheck, decide_eq_true_eq, Option.some.injEq, hr]
    exact fun h => hne h.symm
  · -- orders insert forging u1
    intro r hr
    unfold insertOrderAs rlsInsert
    rw [if_neg]
    simp only [ordersInsertCheck, decide_eq_true_eq, Option.some.injEq, hr]
    exact fun h => hne h.symm
  · -- order_items insert under an order owned by u1
    intro i hi
    rcases hi with ⟨o, ho, hoid, hou⟩
    unfold insertOrderItemAs rlsInsert
    rw [if_neg]
    unfold orderItemsInsertCheck
    intro hc
    rcases List.any_eq_true.mp hc with ⟨o2, ho2f, ho2id⟩
    have ho2 := List.mem_filter.mp ho2f
    simp only [decide_eq_true_eq, Option.some.injEq] at ho2id
    have ho2u : u2 = o2.user_id := by
      have := ho2.2
      simpa using this
    have heq : o = o2 :=
      List.inj_on_of_nodup_map hpk ho ho2.1 (by rw [hoid, ho2id])
    rw [heq] at hou
    exact hne ((ho2u.trans hou).symm)
  · -- profiles: no DELETE policy
    simp [rlsDelete, profilesDeletePolicy]
  · -- orders: no DELETE policy
    simp [rlsDelete, ordersDeletePolicy]
  · -- order_items: no DELETE policy
    simp [rlsDelete, orderItemsDeletePolicy]
  · -- orders: no UPDATE policy
    intro f
    simp [rlsUpdate, ordersUpdatePolicy]
  · -- order_items: no UPDATE policy
    intro f
    simp [rlsUpdate, orderItemsUpdatePolicy]

/-- Witness for C1 at users 1 ≠ 2 over a state holding one row of each
user-owned table, all owned by user 1. -/
theorem rls_cross_user_isolation_witness :
    ((1 : UserId) ≠ 2 ∧ ordersPKUnique isoDb) ∧ crossUserIsolated isoDb 1 2 := by
  exact ⟨⟨by decide, by decide⟩,
    rls_cross_user_isolation isoDb 1 2 (by decide) (by decide)⟩

end GroceryHub
